import Mathlib

/-!
Verification development for the ralph-orchestrator repository.

The Lean definitions below are shallow embeddings of the Python source:

* `src/ralph_orchestrator/context.py` (ContextManager),
* `src/ralph_orchestrator/orchestrator.py` (RalphOrchestrator.arun,
  _check_completion_marker, _determine_trigger_reason, _handle_failure),
* `src/ralph_orchestrator/adapters/acp_handlers.py` (ACPHandlers),
* `src/ralph_orchestrator/adapters/acp.py` (ACPAdapter._execute_prompt).

Machine integers are modelled as Nat / Int (no overflow is reachable in the
modelled code paths); Python float division `failed / max(1, iterations) > 0.5`
is modelled by the exact comparison `2 * failed > max 1 iterations`, which
agrees with IEEE double arithmetic for all counts below 2 ^ 53.  Python
standard-library services that are not part of this repository (the sha256
hex digest, `re.match`, `fnmatch.fnmatch`, the filesystem) are passed in as
explicit function parameters.
-/

namespace RalphOrchestrator

/-! ### Python string primitives -/

/-- Whitespace set of Python `str.strip()`. -/
def pyIsSpace (c : Char) : Bool :=
  c == ' ' || c == '\t' || c == '\n' || c == '\r' || c == '\x0b' || c == '\x0c'

/-- Python `s.strip()`: remove leading and trailing whitespace. -/
def pyStrip (s : String) : String :=
  String.mk (((s.data.dropWhile pyIsSpace).reverse.dropWhile pyIsSpace).reverse)

/-- Python `s[:n]` for a nonnegative index. -/
def pyTake (s : String) (n : Nat) : String :=
  String.mk (s.data.take n)

/-- Python `s[n:]` for a nonnegative index. -/
def pyDrop (s : String) (n : Nat) : String :=
  String.mk (s.data.drop n)

/-- Python `s[:k]` where `k` may be negative (counted from the end, clamped). -/
def pySliceTo (s : String) (k : Int) : String :=
  if 0 ≤ k then pyTake s k.toNat else pyTake s ((s.length : Int) + k).toNat

/-- Character-level prefix test (kernel-reducible). -/
def isPrefixOfChars : List Char → List Char → Bool
  | [], _ => true
  | _ :: _, [] => false
  | a :: as, b :: bs => a == b && isPrefixOfChars as bs

/-- Python `s.startswith(pre)`. -/
def pyStartsWith (s pre : String) : Bool :=
  isPrefixOfChars pre.data s.data

/-- Python `s.endswith(suf)`. -/
def pyEndsWith (s suf : String) : Bool :=
  isPrefixOfChars suf.data.reverse s.data.reverse

/-- Python `c in s` for a single character. -/
def pyContainsChar (s : String) (c : Char) : Bool :=
  s.data.any (· == c)

/-- Helper of `pySplitLines`: the accumulator holds the current line in
reverse. -/
def splitLinesAux : List Char → List Char → List String
  | acc, [] => [String.mk acc.reverse]
  | acc, c :: cs =>
    if c = '\n' then String.mk acc.reverse :: splitLinesAux [] cs
    else splitLinesAux (c :: acc) cs

/-- Python `s.split('\n')`. -/
def pySplitLines (s : String) : List String :=
  splitLinesAux [] s.data

/-- Substring scan helper for `strContainsSub`. -/
def hasSubstrAux (sub : List Char) : List Char → Bool
  | [] => sub.isEmpty
  | c :: cs => isPrefixOfChars sub (c :: cs) || hasSubstrAux sub cs

/-- Python `sub in s`. -/
def strContainsSub (s sub : String) : Bool :=
  hasSubstrAux sub.data s.data

/-- Python `l[-n:]`: the last `n` elements of a list. -/
def pyLast (n : Nat) (l : List String) : List String :=
  l.drop (l.length - n)

/-! ### ContextManager (`context.py`)

The in-memory state of `ContextManager`.  `stablePfx` models the
`stable_prefix` attribute (`none` models Python `None`); the prompt source
text is passed to `getPrompt` explicitly, standing for `prompt_text` or the
current content of `prompt_file`. -/

structure ContextManager where
  maxContextSize : Nat
  stablePfx : Option String
  dynamicContext : List String
  errorHistory : List String
  successPatterns : List String

/-- Loop body of `ContextManager._load_initial_prompt`: the accumulator holds
`stable_lines` in reverse.  A line starting with `#` is collected; once the
accumulator is nonempty a blank line is collected and any other line breaks
the loop; before the first `#` line everything else is skipped. -/
def collectStable : List String → List String → List String
  | acc, [] => acc.reverse
  | acc, l :: ls =>
    if pyStartsWith l "#" then collectStable (l :: acc) ls
    else if !acc.isEmpty && pyStrip l == "" then collectStable (l :: acc) ls
    else if !acc.isEmpty then acc.reverse
    else collectStable acc ls

/-- `ContextManager._load_initial_prompt` applied to the prompt source text:
the value stored into `stable_prefix`. -/
def loadInitialPrompt (content : String) : String :=
  String.intercalate "\n" (collectStable [] (pySplitLines content))

/-- `ContextManager.__init__` over a prompt source (the `prompt_text` path):
computes the stable prefix and starts with empty dynamic state. -/
def mkContextManager (source : String) (maxSize : Nat) : ContextManager :=
  { maxContextSize := maxSize
    stablePfx := some (loadInitialPrompt source)
    dynamicContext := []
    errorHistory := []
    successPatterns := [] }

/-- `ContextManager.reset`: clears the dynamic state, keeps the stable
prefix and the size limit. -/
def ContextManager.reset (cm : ContextManager) : ContextManager :=
  { cm with dynamicContext := [], errorHistory := [], successPatterns := [] }

/-- Line filter of `ContextManager._summarize_content`. -/
def importantLine (l : String) : Bool :=
  pyStartsWith l "#" || strContainsSub l "IMPORTANT" || strContainsSub l "ERROR" ||
    pyStartsWith l "- [ ]"

/-- Truncation step of `_summarize_content`: if the summary is still over
the limit, slice with Python `summary[:max_context_size - 100]` and append
the truncation comment. -/
def summaryTruncate (maxContextSize : Nat) (summary : String) : String :=
  if summary.length > maxContextSize then
    pySliceTo summary ((maxContextSize : Int) - 100) ++ "\n<!-- Content truncated -->"
  else summary

/-- `ContextManager._summarize_content`: keep the important lines, then
truncate if the result is still over the limit. -/
def summarizeContent (maxContextSize : Nat) (content : String) : String :=
  summaryTruncate maxContextSize
    (String.intercalate "\n" ((pySplitLines content).filter importantLine))

/-- The cached-prefix sentinel line emitted by `_optimize_prompt`.
`hashHex` stands for `hashlib.sha256(...).hexdigest()` (a 64 character hex
string in Python); the code keeps its first 8 characters. -/
def cachedPrefixHeader (hashHex : String → String) (sp : String) : String :=
  "<!-- Using cached prefix " ++ pyTake (hashHex sp) 8 ++ " -->\n"

/-- Dynamic-tail step of `_optimize_prompt`: summarize the part after the
stable prefix when it exceeds `max_context_size - 100` (computed in Int, as
Python would). -/
def optimizeDynamicPart (maxContextSize : Nat) (dynamicPart : String) : String :=
  if (dynamicPart.length : Int) > (maxContextSize : Int) - 100 then
    summarizeContent maxContextSize dynamicPart
  else dynamicPart

/-- `ContextManager._optimize_prompt`.  Writing the prefix cache file has no
effect on the returned string and is not modelled. -/
def optimizePrompt (hashHex : String → String) (cm : ContextManager)
    (content : String) : String :=
  match cm.stablePfx with
  | some sp =>
    if sp ≠ "" then
      cachedPrefixHeader hashHex sp ++
        optimizeDynamicPart cm.maxContextSize (pyDrop content sp.length)
    else summarizeContent cm.maxContextSize content
  | none => summarizeContent cm.maxContextSize content

/-- Dynamic-context block of `get_prompt`: append the last three dynamic
entries when there is room (strictly below the limit). -/
def addDynamicContext (cm : ContextManager) (base : String) : String :=
  if !cm.dynamicContext.isEmpty then
    if base.length +
        ("\n\n## Previous Context\n" ++
          String.intercalate "\n" (pyLast 3 cm.dynamicContext)).length
        < cm.maxContextSize then
      base ++ ("\n\n## Previous Context\n" ++
        String.intercalate "\n" (pyLast 3 cm.dynamicContext))
    else base
  else base

/-- Error-history block of `get_prompt`: append the last two error entries
when there is room (strictly below the limit). -/
def addErrorHistory (cm : ContextManager) (base : String) : String :=
  if !cm.errorHistory.isEmpty then
    if base.length +
        ("\n\n## Recent Errors to Avoid\n" ++
          String.intercalate "\n" (pyLast 2 cm.errorHistory)).length
        < cm.maxContextSize then
      base ++ ("\n\n## Recent Errors to Avoid\n" ++
        String.intercalate "\n" (pyLast 2 cm.errorHistory))
    else base
  else base

/-- `ContextManager.get_prompt` over the current prompt source text. -/
def getPrompt (hashHex : String → String) (cm : ContextManager)
    (baseSource : String) : String :=
  if baseSource.length > cm.maxContextSize then
    optimizePrompt hashHex cm baseSource
  else addErrorHistory cm (addDynamicContext cm baseSource)

/-- A stand-in for the sha256 hex digest: a constant 64 character hex string.
Only the length of the digest matters to the properties proved here. -/
def hashConst : String → String :=
  fun _ => "0000000000000000000000000000000000000000000000000000000000000000"

/-! ### Orchestration loop (`orchestrator.py`)

`Metrics` models the counters of the `Metrics` dataclass that the loop in
`RalphOrchestrator.arun` reads and writes.  One `TickEnv` bundles everything
external the loop consumes during one pass of the `while` body: the safety
verdict, the prompt file content read by `_check_completion_marker`, the
outcome of `_aexecute_iteration` (success with the loop-detection verdict,
failure with the git-reset outcome, or a raised exception), and the git
outcome of `_create_checkpoint`. -/

structure Metrics where
  iterations : Nat
  successfulIterations : Nat
  failedIterations : Nat
  errors : Nat
  checkpoints : Nat
  rollbacks : Nat
deriving DecidableEq

/-- Freshly constructed metrics: all counters zero. -/
def Metrics.init : Metrics := ⟨0, 0, 0, 0, 0, 0⟩

/-- Outcome of one `_aexecute_iteration` call, as seen by the loop. -/
inductive IterOutcome where
  | success (loopDetected : Bool)
  | failure (rollbackOk : Bool)
  | exception
deriving DecidableEq

/-- External inputs consumed by one pass of the `arun` while body. -/
structure TickEnv where
  safetyPassed : Bool
  promptContent : String
  outcome : IterOutcome
  checkpointOk : Bool
deriving DecidableEq

/-- Loop configuration: the checkpoint interval (positive in the real
program; its default is 5). -/
structure OrchestratorConfig where
  checkpointInterval : Nat
deriving DecidableEq

/-- `RalphOrchestrator._check_completion_marker` applied to the prompt file
content: some line equals, after stripping, one of the two checkbox marker
forms. -/
def checkCompletionMarker (content : String) : Bool :=
  (pySplitLines content).any fun line =>
    pyStrip line == "- [x] TASK_COMPLETE" || pyStrip line == "[x] TASK_COMPLETE"

/-- `RalphOrchestrator._determine_trigger_reason`.  Python compares
`failed_iterations / max(1, iterations) > 0.5` in float arithmetic; this is
modelled exactly as `2 * failed > max 1 iterations` (the two agree for all
counts below `2 ^ 53`). -/
def determineTriggerReason (m : Metrics) : String :=
  if m.iterations = 0 then "initial"
  else if 0 < m.failedIterations ∧
      2 * m.failedIterations > max 1 m.iterations then "recovery"
  else if m.successfulIterations = m.iterations - 1 then "previous_success"
  else "task_incomplete"

/-- Result of `RalphOrchestrator._handle_failure`: the backoff duration in
seconds and whether `_rollback_checkpoint` is invoked.  The argument is
`metrics.failed_iterations` at call time (the loop increments it before the
call). -/
structure FailureAction where
  backoffSeconds : Nat
  rollbackAttempted : Bool
deriving DecidableEq

/-- `RalphOrchestrator._handle_failure`. -/
def handleFailure (failedIterations : Nat) : FailureAction :=
  { backoffSeconds := min (2 ^ failedIterations) 60
    rollbackAttempted := 3 < failedIterations }

/-- Periodic checkpoint step of the loop: when the iteration counter is a
multiple of the checkpoint interval, `_create_checkpoint` runs and increments
`checkpoints` when both git commands succeed. -/
def checkpointStep (cfg : OrchestratorConfig) (ok : Bool) (m : Metrics) : Metrics :=
  if m.iterations % cfg.checkpointInterval = 0 ∧ ok then
    { m with checkpoints := m.checkpoints + 1 }
  else m

/-- Observable log of one `arun` run: the final metrics, the number of
`_aexecute_iteration` invocations, the trigger reasons recorded per
iteration (in order), the backoff durations slept by `_handle_failure` (in
order), and the number of rollback attempts. -/
structure RunResult where
  metrics : Metrics
  invocations : Nat
  triggers : List String
  backoffs : List Nat
  rollbackAttempts : Nat
deriving DecidableEq

/-- Run log of a loop exit that executes no further iteration. -/
def exitResult (m : Metrics) : RunResult :=
  { metrics := m, invocations := 0, triggers := [], backoffs := [], rollbackAttempts := 0 }

/-- The `while` loop of `RalphOrchestrator.arun`.  Each element of the
environment list feeds one pass of the body; an exhausted list models
`stop_requested` becoming true.  The body order follows the source: safety
check, completion-marker check, trigger classification, iteration counter
increment, adapter invocation, then the success / failure / exception
bookkeeping, the periodic checkpoint, and the loop-detection break. -/
def arun (cfg : OrchestratorConfig) : List TickEnv → Metrics → RunResult
  | [], m => exitResult m
  | e :: rest, m =>
    if e.safetyPassed then
      if checkCompletionMarker e.promptContent then exitResult m
      else
        let trigger := determineTriggerReason m
        let m1 := { m with iterations := m.iterations + 1 }
        match e.outcome with
        | .success loopDetected =>
          let m2 := { m1 with successfulIterations := m1.successfulIterations + 1 }
          let m3 := checkpointStep cfg e.checkpointOk m2
          if loopDetected then
            { metrics := m3, invocations := 1, triggers := [trigger],
              backoffs := [], rollbackAttempts := 0 }
          else
            let r := arun cfg rest m3
            { r with invocations := r.invocations + 1, triggers := trigger :: r.triggers }
        | .failure rollbackOk =>
          let m2 := { m1 with failedIterations := m1.failedIterations + 1 }
          let fa := handleFailure m2.failedIterations
          let m3 :=
            if fa.rollbackAttempted && rollbackOk then
              { m2 with rollbacks := m2.rollbacks + 1 }
            else m2
          let m4 := checkpointStep cfg e.checkpointOk m3
          let r := arun cfg rest m4
          { metrics := r.metrics
            invocations := r.invocations + 1
            triggers := trigger :: r.triggers
            backoffs := fa.backoffSeconds :: r.backoffs
            rollbackAttempts := (if fa.rollbackAttempted then 1 else 0) + r.rollbackAttempts }
        | .exception =>
          let m2 := { m1 with errors := m1.errors + 1 }
          let m3 := if 5 < m2.errors then Metrics.init else m2
          let r := arun cfg rest m3
          { r with invocations := r.invocations + 1, triggers := trigger :: r.triggers }
    else exitResult m

/-! ### ACP permission handling (`acp_handlers.py`) -/

/-- Result of `ACPHandlers._evaluate_permission` and friends. -/
structure PermissionResult where
  approved : Bool
  reason : String
  mode : String
deriving DecidableEq

/-- `ACPHandlers._matches_pattern`.  `reMatch` stands for Python
`re.match` restricted to a boolean verdict (an invalid regex, which the
source catches as `re.error`, is a pattern on which `reMatch` returns
false); `fnMatch` stands for `fnmatch.fnmatch`.  Both are Python standard
library services, not code of this repository. -/
def matchesPattern (reMatch fnMatch : String → String → Bool)
    (operation pattern : String) : Bool :=
  if pyStartsWith pattern "/" && pyEndsWith pattern "/" then
    reMatch (String.mk ((pattern.data.drop 1).dropLast)) operation
  else if pyContainsChar pattern '*' || pyContainsChar pattern '?' then
    fnMatch operation pattern
  else operation == pattern

/-- `ACPHandlers._evaluate_allowlist`: first matching pattern approves,
otherwise the request is denied. -/
def evaluateAllowlist (reMatch fnMatch : String → String → Bool)
    (operation : String) : List String → PermissionResult
  | [] => { approved := false, reason := "no matching allowlist pattern", mode := "allowlist" }
  | p :: ps =>
    if matchesPattern reMatch fnMatch operation p then
      { approved := true, reason := "matches allowlist pattern: " ++ p, mode := "allowlist" }
    else evaluateAllowlist reMatch fnMatch operation ps

/-- One element of the `options` array of a `session/request_permission`
request: `option.get("type")` and `option.get("id")`. -/
structure PermissionOption where
  type : Option String
  id : Option String
deriving DecidableEq

/-- Shape of the value under the `outcome` key of the
`handle_request_permission` response. -/
inductive PermissionOutcome where
  | selected (optionId : String)
  | cancelled
deriving DecidableEq

/-- The `for option in options: ... break` scan of
`handle_request_permission`: the id of the first option whose type is
`allow`, or `none` when there is no such option (also when the first such
option carries no id, matching the Python loop that breaks there). -/
def firstAllowOptionId : List PermissionOption → Option String
  | [] => none
  | o :: os => if o.type == some "allow" then o.id else firstAllowOptionId os

/-- Python falsiness of an optional string: `None` and the empty string. -/
def pyFalsyStr : Option String → Bool
  | none => true
  | some s => s == ""

/-- `ACPHandlers.handle_request_permission`, given the decision of
`_evaluate_permission` and the parsed options array. -/
def handleRequestPermission (approved : Bool)
    (options : List PermissionOption) : PermissionOutcome :=
  if approved then
    let selectedOptionId := firstAllowOptionId options
    let selectedOptionId :=
      if pyFalsyStr selectedOptionId then
        match options with
        | [] => some "proceed_once"
        | o :: _ => some (o.id.getD "proceed_once")
      else selectedOptionId
    PermissionOutcome.selected (selectedOptionId.getD "proceed_once")
  else PermissionOutcome.cancelled

/-! ### `fs/read_text_file` handler (`acp_handlers.py`) -/

/-- What reading a regular file yields: the decoded text, or one of the
exceptions the source catches. -/
inductive ReadOutcome where
  | ok (content : String)
  | permissionDenied
  | invalidUtf8
  | osError (msg : String)

/-- What a resolved path denotes on disk.  `directory` stands for any
existing path that is not a regular file (`resolved_path.is_file()` false). -/
inductive FsNode where
  | absent
  | directory
  | file (read : ReadOutcome)

/-- Filesystem oracle: `resolve` models `Path.resolve()` (symlink
resolution and normalisation), `node` the state of the resolved path. -/
structure Fs where
  resolve : String → String
  node : String → FsNode

/-- Response shape of `handle_read_file`: the probe answer
`{content: null, exists: false}`, a content payload `{content: text}`, or a
JSON-RPC error object `{error: {code, message}}`. -/
inductive ReadFileResponse where
  | missing
  | content (text : String)
  | rpcError (code : Int) (message : String)

/-- `ACPHandlers.handle_read_file` with the `path` parameter (`none` models
a request without a `path` key).  A path is absolute, in the posix sense of
`Path.is_absolute`, exactly when it starts with a slash. -/
def handleReadFile (fs : Fs) (pathParam : Option String) : ReadFileResponse :=
  match pathParam with
  | none => .rpcError (-32602) "Missing required parameter: path"
  | some pathStr =>
    if pathStr = "" then .rpcError (-32602) "Missing required parameter: path"
    else if !pyStartsWith pathStr "/" then
      .rpcError (-32602) ("Path must be absolute: " ++ pathStr)
    else
      match fs.node (fs.resolve pathStr) with
      | .absent => .missing
      | .directory => .rpcError (-32002) ("Path is not a file: " ++ pathStr)
      | .file (.ok c) => .content c
      | .file .permissionDenied => .rpcError (-32003) ("Permission denied: " ++ pathStr)
      | .file .invalidUtf8 =>
        .rpcError (-32004) ("File is not valid UTF-8 text: " ++ pathStr)
      | .file (.osError m) => .rpcError (-32000) ("Failed to read file: " ++ m)

/-! ### ACP adapter prompt execution (`acp.py`) -/

/-- The session state fields of `ACPSession` that `_execute_prompt` reads. -/
structure ACPSessionState where
  output : String
  toolCalls : List String
  thoughts : List String
deriving DecidableEq

/-- A JSON-like metadata value. -/
inductive MetaValue where
  | str (s : String)
  | num (n : Nat)
  | boolean (b : Bool)
deriving DecidableEq

/-- The fields of `ToolResponse` that `_execute_prompt` populates. -/
structure ToolResponse where
  success : Bool
  output : String
  error : Option String
  metadata : List (String × MetaValue)
deriving DecidableEq

/-- How waiting on the `session/prompt` future ends: a response dict, with
its optional `stopReason` and optional `error.message`, or
`asyncio.TimeoutError`. -/
inductive PromptOutcome where
  | response (stopReason : Option String) (errorMessage : Option String)
  | timeout
deriving DecidableEq

/-- `ACPAdapter._execute_prompt` after the request is sent, for an
established session id.  `session` models `self._session` (`none` when it is
Python `None`), `timeout` the configured timeout in seconds. -/
def executePrompt (agentCommand sessionId : String)
    (session : Option ACPSessionState) (timeout : Nat)
    (outcome : PromptOutcome) : ToolResponse :=
  match outcome with
  | .timeout =>
    { success := false
      output := (session.map ACPSessionState.output).getD ""
      error := some ("Prompt execution timed out after " ++ toString timeout ++ " seconds")
      metadata := [("tool", .str "acp"), ("agent", .str agentCommand),
                   ("session_id", .str sessionId)] }
  | .response stopReason errorMessage =>
    let stop := stopReason.getD "unknown"
    if stop = "error" then
      { success := false
        output := (session.map ACPSessionState.output).getD ""
        error := some (errorMessage.getD "Unknown error from agent")
        metadata := [("tool", .str "acp"), ("agent", .str agentCommand),
                     ("session_id", .str sessionId), ("stop_reason", .str stop)] }
    else
      { success := true
        output := (session.map ACPSessionState.output).getD ""
        error := none
        metadata := [("tool", .str "acp"), ("agent", .str agentCommand),
                     ("session_id", .str sessionId), ("stop_reason", .str stop),
                     ("tool_calls_count",
                       .num ((session.map fun s => s.toolCalls.length).getD 0)),
                     ("has_thoughts",
                       .boolean ((session.map fun s => !s.thoughts.isEmpty).getD false))] }

/-! ### Claim C8: the stable prefix -/

/-- Predicate for lines that open the stable prefix. -/
def hashLine (l : String) : Bool := pyStartsWith l "#"

/-- Predicate for lines that extend an opened stable prefix. -/
def hashOrBlankLine (l : String) : Bool := pyStartsWith l "#" || pyStrip l == ""

/-- Amended reading of the stable prefix: skip lines up to the first line
that starts with a hash mark, then take the contiguous block of lines that
start with a hash mark or are whitespace-only. -/
def headingBlockAfterSkip (content : String) : String :=
  String.intercalate "\n"
    (((pySplitLines content).dropWhile fun l => !hashLine l).takeWhile hashOrBlankLine)

theorem collectStable_ne_nil (ls : List String) :
    ∀ acc : List String, acc ≠ [] →
      collectStable acc ls = acc.reverse ++ ls.takeWhile hashOrBlankLine := by
  induction ls with
  | nil => intro acc _; simp [collectStable]
  | cons l ls ih =>
    intro acc hacc
    have hne : acc.isEmpty = false := by
      cases acc with
      | nil => exact absurd rfl hacc
      | cons a as => rfl
    cases h1 : pyStartsWith l "#" with
    | true =>
      rw [show collectStable acc (l :: ls) = collectStable (l :: acc) ls by
            simp [collectStable, h1],
          ih (l :: acc) (by simp)]
      simp [hashOrBlankLine, h1, List.takeWhile_cons]
    | false =>
      cases h2 : pyStrip l == "" with
      | true =>
        rw [show collectStable acc (l :: ls) = collectStable (l :: acc) ls by
              simp [collectStable, h1, h2, hne],
            ih (l :: acc) (by simp)]
        simp [hashOrBlankLine, h1, h2, List.takeWhile_cons]
      | false =>
        rw [show collectStable acc (l :: ls) = acc.reverse by
              simp [collectStable, h1, h2, hne]]
        simp [hashOrBlankLine, h1, h2, List.takeWhile_cons]

theorem collectStable_nil_acc (ls : List String) :
    collectStable [] ls
      = ((ls.dropWhile fun l => !hashLine l).takeWhile hashOrBlankLine) := by
  induction ls with
  | nil => simp [collectStable]
  | cons l ls ih =>
    cases h1 : pyStartsWith l "#" with
    | true =>
      rw [show collectStable [] (l :: ls) = collectStable [l] ls by
            simp [collectStable, h1],
          collectStable_ne_nil ls [l] (by simp)]
      simp [hashLine, hashOrBlankLine, h1, List.dropWhile_cons, List.takeWhile_cons]
    | false =>
      rw [show collectStable [] (l :: ls) = collectStable [] ls by
            simp [collectStable, h1]]
      simpa [hashLine, h1, List.dropWhile_cons] using ih

/-- Claim C8 (counterexample).  The source "hello\n# Title" has a first line
that is nonempty and does not start with a hash mark, so the claim demands
an empty stable prefix; `_load_initial_prompt` instead skips the leading
line and returns "# Title". -/
theorem stable_prefix_counterexample :
    loadInitialPrompt "hello\n# Title" = "# Title" ∧ "# Title" ≠ "" := by
  constructor
  · rfl
  · decide

/-- Claim C8 (amended).  For every prompt source, the stable prefix retained
at construction equals the contiguous block starting at the first line that
begins with a hash mark (lines before it are skipped, not required to be
absent), extended through subsequent lines that begin with a hash mark or
are whitespace-only, and joined with newlines; it is empty when no line
begins with a hash mark. -/
theorem stable_prefix_amended (content : String) :
    loadInitialPrompt content = headingBlockAfterSkip content := by
  unfold loadInitialPrompt headingBlockAfterSkip
  rw [collectStable_nil_acc]

/-! ### Claim C9: reset then get_prompt equals a fresh construction -/

/-- Claim C9.  For a context manager over a fixed prompt source whose length
never exceeded `max_context_size`, `reset()` followed by `get_prompt()`
returns exactly the string a freshly constructed manager over the same
source returns.  The first hypothesis states that the manager was
constructed over this source: `stable_prefix` is computed once, at
construction, and never mutated afterwards. -/
theorem reset_get_prompt_eq_fresh (hashHex : String → String)
    (cm : ContextManager) (source : String)
    (hsp : cm.stablePfx = some (loadInitialPrompt source))
    (hsize : source.length ≤ cm.maxContextSize) :
    getPrompt hashHex cm.reset source
      = getPrompt hashHex (mkContextManager source cm.maxContextSize) source := by
  have h : cm.reset = mkContextManager source cm.maxContextSize := by
    cases cm
    simp_all [ContextManager.reset, mkContextManager]
  rw [h]

/-- Witness for C9 at a concrete manager and source. -/
theorem reset_get_prompt_eq_fresh_witness :
    ((mkContextManager "# A" 100).stablePfx = some (loadInitialPrompt "# A") ∧
      ("# A" : String).length ≤ (mkContextManager "# A" 100).maxContextSize) ∧
    getPrompt hashConst (mkContextManager "# A" 100).reset "# A"
      = getPrompt hashConst
          (mkContextManager "# A" (mkContextManager "# A" 100).maxContextSize) "# A" :=
  ⟨⟨rfl, by decide⟩,
    reset_get_prompt_eq_fresh hashConst (mkContextManager "# A" 100) "# A" rfl (by decide)⟩

/-! ### Claim C10: size of the assembled prompt -/

theorem length_pyTake (s : String) (n : Nat) : (pyTake s n).length ≤ n := by
  have : (pyTake s n).length = (s.data.take n).length := rfl
  rw [this, List.length_take]
  exact Nat.min_le_left n _

theorem length_pySliceTo (s : String) (k : Int) (hk : 0 ≤ k) :
    (pySliceTo s k).length ≤ k.toNat := by
  rw [pySliceTo, if_pos hk]
  exact length_pyTake s k.toNat

theorem summaryTruncate_length (M : Nat) (s : String) (hM : 100 ≤ M) :
    (summaryTruncate M s).length ≤ M := by
  rw [summaryTruncate]
  split
  · rw [String.length_append]
    have h1 : (pySliceTo s ((M : Int) - 100)).length ≤ ((M : Int) - 100).toNat :=
      length_pySliceTo s _ (by omega)
    have h2 : ((M : Int) - 100).toNat = M - 100 := by omega
    have h3 : ("\n<!-- Content truncated -->" : String).length = 27 := rfl
    omega
  · omega

theorem summarizeContent_length (M : Nat) (c : String) (hM : 100 ≤ M) :
    (summarizeContent M c).length ≤ M :=
  summaryTruncate_length M _ hM

theorem cachedPrefixHeader_length (hashHex : String → String) (sp : String) :
    (cachedPrefixHeader hashHex sp).length ≤ 38 := by
  rw [cachedPrefixHeader, String.length_append, String.length_append]
  have h1 : ("<!-- Using cached prefix " : String).length = 25 := rfl
  have h2 : (" -->\n" : String).length = 5 := rfl
  have h3 := length_pyTake (hashHex sp) 8
  omega

theorem optimizeDynamicPart_length (M : Nat) (d : String) (hM : 100 ≤ M) :
    (optimizeDynamicPart M d).length ≤ M := by
  rw [optimizeDynamicPart]
  split
  · exact summarizeContent_length M d hM
  · rename_i h
    omega

theorem optimizePrompt_length (hashHex : String → String) (cm : ContextManager)
    (c : String) (hM : 100 ≤ cm.maxContextSize) :
    (optimizePrompt hashHex cm c).length ≤ cm.maxContextSize + 38 := by
  rw [optimizePrompt]
  split
  · rename_i x sp heq
    split
    · rw [String.length_append]
      have h1 := cachedPrefixHeader_length hashHex sp
      have h2 := optimizeDynamicPart_length cm.maxContextSize (pyDrop c sp.length) hM
      omega
    · have := summarizeContent_length cm.maxContextSize c hM; omega
  · have := summarizeContent_length cm.maxContextSize c hM; omega

theorem addDynamicContext_length (cm : ContextManager) (base : String)
    (hb : base.length ≤ cm.maxContextSize) :
    (addDynamicContext cm base).length ≤ cm.maxContextSize := by
  rw [addDynamicContext]
  split
  · split
    · rename_i h
      rw [String.length_append]
      omega
    · exact hb
  · exact hb

theorem addErrorHistory_length (cm : ContextManager) (base : String)
    (hb : base.length ≤ cm.maxContextSize) :
    (addErrorHistory cm base).length ≤ cm.maxContextSize := by
  rw [addErrorHistory]
  split
  · split
    · rename_i h
      rw [String.length_append]
      omega
    · exact hb
  · exact hb

/-- Claim C10 (counterexample).  A reachable manager (constructed over the
source "# Ti\nb\n## X" with `max_context_size = 10`) returns from
`get_prompt()` a 42 character string, exceeding the limit: the optimize
path prepends the 38 character cached-prefix sentinel to a summarized tail
that was only checked against the limit on its own. -/
theorem get_prompt_size_counterexample :
    (getPrompt hashConst (mkContextManager "# Ti\nb\n## X" 10) "# Ti\nb\n## X").length = 42 ∧
    (mkContextManager "# Ti\nb\n## X" 10).maxContextSize = 10 := by
  constructor
  · rfl
  · rfl

/-- Claim C10 (amended).  The result of `get_prompt()` is not bounded by
`max_context_size`; for every manager with `max_context_size ≥ 100` it is
bounded by `max_context_size + 38`, the length of the cached-prefix
sentinel line (the sha256 stand-in only ever contributes the 8 characters
the code keeps).  Below 100 the Python slice `summary[:max_context_size -
100]` has a negative bound and the result is unbounded, as the
counterexample illustrates at size 10. -/
theorem get_prompt_length_bound (hashHex : String → String)
    (cm : ContextManager) (base : String) (h100 : 100 ≤ cm.maxContextSize) :
    (getPrompt hashHex cm base).length ≤ cm.maxContextSize + 38 := by
  rw [getPrompt]
  split
  · exact optimizePrompt_length hashHex cm base h100
  · rename_i h
    have hb : base.length ≤ cm.maxContextSize := by omega
    have h1 := addDynamicContext_length cm base hb
    have h2 := addErrorHistory_length cm (addDynamicContext cm base) h1
    omega

/-- Witness for the amended C10 bound at a concrete manager. -/
theorem get_prompt_length_bound_witness :
    100 ≤ (mkContextManager "# A" 100).maxContextSize ∧
    (getPrompt hashConst (mkContextManager "# A" 100) "# A").length
      ≤ (mkContextManager "# A" 100).maxContextSize + 38 :=
  ⟨by decide, get_prompt_length_bound hashConst (mkContextManager "# A" 100) "# A" (by decide)⟩

/-! ### Claim C1: completion marker short-circuit -/

/-- Claim C1.  If the prompt file content at the start of a tick contains a
line that strips to one of the two completion markers, the loop exits
before invoking the adapter: no `_aexecute_iteration` call (and hence no
`session/prompt`) is issued in the run, and the iteration counter stays 0
when the marker is present from the start. -/
theorem completion_marker_short_circuit (cfg : OrchestratorConfig)
    (e : TickEnv) (rest : List TickEnv)
    (h : checkCompletionMarker e.promptContent = true) :
    (arun cfg (e :: rest) Metrics.init).invocations = 0 ∧
    (arun cfg (e :: rest) Metrics.init).metrics.iterations = 0 := by
  rw [arun]
  cases hs : e.safetyPassed with
  | true => simp [hs, h, exitResult, Metrics.init]
  | false => simp [hs, exitResult, Metrics.init]

/-- Witness for C1: a one-tick run whose prompt is exactly the marker. -/
theorem completion_marker_short_circuit_witness :
    checkCompletionMarker
        (TickEnv.promptContent ⟨true, "- [x] TASK_COMPLETE", IterOutcome.success false, true⟩)
      = true ∧
    ((arun ⟨5⟩ [⟨true, "- [x] TASK_COMPLETE", IterOutcome.success false, true⟩]
        Metrics.init).invocations = 0 ∧
     (arun ⟨5⟩ [⟨true, "- [x] TASK_COMPLETE", IterOutcome.success false, true⟩]
        Metrics.init).metrics.iterations = 0) :=
  ⟨by decide,
    completion_marker_short_circuit ⟨5⟩
      ⟨true, "- [x] TASK_COMPLETE", IterOutcome.success false, true⟩ [] (by decide)⟩

/-! ### Claim C2: trigger classification -/

/-- Claim C2 (counterexample).  A run of two successful iterations from a
fresh state: every previous iteration succeeded at the start of the second
tick, yet the recorded trigger is `task_incomplete`, not the
`previous_success` the claim demands (the code compares
`successful_iterations == iterations - 1` on the pre-increment counters,
which fails when every iteration succeeded). -/
theorem trigger_reason_counterexample :
    (arun ⟨5⟩ [⟨true, "", IterOutcome.success false, true⟩,
               ⟨true, "", IterOutcome.success false, true⟩] Metrics.init).metrics
      = ⟨2, 2, 0, 0, 0, 0⟩ ∧
    (arun ⟨5⟩ [⟨true, "", IterOutcome.success false, true⟩,
               ⟨true, "", IterOutcome.success false, true⟩] Metrics.init).triggers
      = ["initial", "task_incomplete"] ∧
    "task_incomplete" ≠ "previous_success" := by
  refine ⟨by decide, by decide, by decide⟩

/-- Claim C2 (amended).  The pre-increment classification is: `initial`
when no iteration has run; else `recovery` when
`failed / iterations > 1/2` (exactly); else `previous_success` when
`successful_iterations + 1 = iterations`, that is, when exactly one counted
iteration was not successful — not when the previous iteration succeeded;
else `task_incomplete`.  The second conjunct shows the loop records exactly
this classification of the pre-increment state for the iteration it
executes. -/
theorem trigger_classification_amended (m : Metrics)
    (cfg : OrchestratorConfig) (e : TickEnv) (rest : List TickEnv)
    (hsafe : e.safetyPassed = true)
    (hmark : checkCompletionMarker e.promptContent = false) :
    determineTriggerReason m
      = (if m.iterations = 0 then "initial"
         else if 2 * m.failedIterations > m.iterations then "recovery"
         else if m.successfulIterations + 1 = m.iterations then "previous_success"
         else "task_incomplete") ∧
    (arun cfg (e :: rest) m).triggers.head? = some (determineTriggerReason m) := by
  constructor
  · rw [determineTriggerReason]
    rcases Nat.eq_zero_or_pos m.iterations with h0 | h0
    · simp [h0]
    · have h1 : ¬ m.iterations = 0 := by omega
      rw [if_neg h1, if_neg h1]
      have hmax : max 1 m.iterations = m.iterations := by omega
      by_cases hr : 2 * m.failedIterations > m.iterations
      · rw [if_pos (by constructor <;> omega), if_pos hr]
      · rw [if_neg (by rw [hmax]; omega), if_neg hr]
        by_cases hp : m.successfulIterations = m.iterations - 1
        · rw [if_pos hp, if_pos (by omega)]
        · rw [if_neg hp, if_neg (by omega)]
  · rw [arun]
    simp only [hsafe, hmark, if_true, if_false, Bool.false_eq_true]
    cases e.outcome with
    | success loopDetected => cases loopDetected <;> simp
    | failure rollbackOk => simp
    | exception => simp

/-- Witness for the amended C2 at a fresh state and a plain tick. -/
theorem trigger_classification_amended_witness :
    (TickEnv.safetyPassed ⟨true, "", IterOutcome.success false, true⟩ = true ∧
     checkCompletionMarker
        (TickEnv.promptContent ⟨true, "", IterOutcome.success false, true⟩) = false) ∧
    (determineTriggerReason Metrics.init
        = (if Metrics.init.iterations = 0 then "initial"
           else if 2 * Metrics.init.failedIterations > Metrics.init.iterations then "recovery"
           else if Metrics.init.successfulIterations + 1 = Metrics.init.iterations then
             "previous_success"
           else "task_incomplete") ∧
     (arun ⟨5⟩ [⟨true, "", IterOutcome.success false, true⟩]
        Metrics.init).triggers.head? = some (determineTriggerReason Metrics.init)) :=
  ⟨⟨by decide, by decide⟩,
    trigger_classification_amended Metrics.init ⟨5⟩
      ⟨true, "", IterOutcome.success false, true⟩ [] (by decide) (by decide)⟩

/-! ### Claim C7: backoff and rollback -/

theorem checkpointStep_failedIterations (cfg : OrchestratorConfig) (ok : Bool)
    (m : Metrics) : (checkpointStep cfg ok m).failedIterations = m.failedIterations := by
  rw [checkpointStep]
  split <;> rfl

/-- Claim C7 (counterexample).  A run with exactly three cumulative failed
iterations attempts no rollback at all, although the claim says the third
failure triggers one (`_handle_failure` rolls back only when
`failed_iterations > 3`). -/
theorem rollback_counterexample :
    (arun ⟨5⟩ [⟨true, "", IterOutcome.failure true, true⟩,
               ⟨true, "", IterOutcome.failure true, true⟩,
               ⟨true, "", IterOutcome.failure true, true⟩]
        Metrics.init).metrics.failedIterations = 3 ∧
    (arun ⟨5⟩ [⟨true, "", IterOutcome.failure true, true⟩,
               ⟨true, "", IterOutcome.failure true, true⟩,
               ⟨true, "", IterOutcome.failure true, true⟩]
        Metrics.init).rollbackAttempts = 0 ∧
    (arun ⟨5⟩ [⟨true, "", IterOutcome.failure true, true⟩,
               ⟨true, "", IterOutcome.failure true, true⟩,
               ⟨true, "", IterOutcome.failure true, true⟩]
        Metrics.init).backoffs = [2, 4, 8] := by
  refine ⟨by decide, by decide, by decide⟩

/-- Claim C7 (amended).  In every run without exceptions: the k-th failed
iteration is followed by a sleep of `min(2 ^ f, 60)` seconds where `f` is
the cumulative failed count after that failure, and a rollback is attempted
exactly at the failures whose cumulative count exceeds three — never for a
single failure, and not at the third: the number of rollback attempts is
the final failed count minus `max 3 initialFailed`. -/
theorem backoff_and_rollback_amended (cfg : OrchestratorConfig)
    (envs : List TickEnv) (m : Metrics)
    (hexc : ∀ e ∈ envs, e.outcome ≠ IterOutcome.exception) :
    (arun cfg envs m).metrics.failedIterations
        = m.failedIterations + (arun cfg envs m).backoffs.length ∧
    (arun cfg envs m).backoffs
        = (List.range (arun cfg envs m).backoffs.length).map
            (fun i => min (2 ^ (m.failedIterations + i + 1)) 60) ∧
    (arun cfg envs m).rollbackAttempts
        = (arun cfg envs m).metrics.failedIterations - max 3 m.failedIterations := by
  induction envs generalizing m with
  | nil =>
    refine ⟨by simp [arun, exitResult], by simp [arun, exitResult], ?_⟩
    simp only [arun, exitResult]
    omega
  | cons e rest ih =>
    have he : e.outcome ≠ IterOutcome.exception := hexc e (by simp)
    have hrest : ∀ x ∈ rest, x.outcome ≠ IterOutcome.exception :=
      fun x hx => hexc x (by simp [hx])
    cases hs : e.safetyPassed with
    | false =>
      simp only [arun, hs, Bool.false_eq_true, if_false, exitResult]
      refine ⟨by simp, by simp, by omega⟩
    | true =>
      cases hm : checkCompletionMarker e.promptContent with
      | true =>
        simp only [arun, hs, hm, if_true, exitResult]
        refine ⟨by simp, by simp, by omega⟩
      | false =>
        cases ho : e.outcome with
        | success loopDetected =>
          cases loopDetected with
          | true =>
            simp only [arun, hs, hm, ho, Bool.false_eq_true, if_false, if_true]
            refine ⟨by simp [checkpointStep_failedIterations], by simp, ?_⟩
            simp only [checkpointStep_failedIterations]
            omega
          | false =>
            obtain ⟨ih1, ih2, ih3⟩ := ih (checkpointStep cfg e.checkpointOk
              { m with iterations := m.iterations + 1,
                       successfulIterations := m.successfulIterations + 1 }) hrest
            rw [checkpointStep_failedIterations] at ih1 ih2 ih3
            simp only [arun, hs, hm, ho, Bool.false_eq_true, if_false, if_true]
            exact ⟨ih1, ih2, ih3⟩
        | failure rollbackOk =>
          obtain ⟨ih1, ih2, ih3⟩ := ih (checkpointStep cfg e.checkpointOk
            (if ((handleFailure (m.failedIterations + 1)).rollbackAttempted && rollbackOk) = true
             then { m with iterations := m.iterations + 1,
                           failedIterations := m.failedIterations + 1,
                           rollbacks := m.rollbacks + 1 }
             else { m with iterations := m.iterations + 1,
                           failedIterations := m.failedIterations + 1 })) hrest
          simp only [arun, hs, hm, ho, Bool.false_eq_true, if_false, if_true]
          have hfpres : (checkpointStep cfg e.checkpointOk
              (if ((handleFailure (m.failedIterations + 1)).rollbackAttempted && rollbackOk) = true
               then { m with iterations := m.iterations + 1,
                             failedIterations := m.failedIterations + 1,
                             rollbacks := m.rollbacks + 1 }
               else { m with iterations := m.iterations + 1,
                             failedIterations := m.failedIterations + 1 })).failedIterations
              = m.failedIterations + 1 := by
            rw [checkpointStep_failedIterations]
            split <;> rfl
          rw [hfpres] at ih1 ih2 ih3
          refine ⟨?_, ?_, ?_⟩
          · simp only [List.length_cons]
            omega
          · simp only [List.length_cons, List.range_succ_eq_map, List.map_cons,
              List.map_map]
            refine List.cons_eq_cons.mpr ⟨?_, ?_⟩
            · simp [handleFailure]
            · conv_lhs => rw [ih2]
              apply List.map_congr_left
              intro i _
              simp only [Function.comp_apply]
              congr 2
              omega
          · rw [ih3]
            have hdec : ((handleFailure (m.failedIterations + 1)).rollbackAttempted = true)
                ↔ 3 < m.failedIterations + 1 := by
              simp [handleFailure]
            by_cases hb : (handleFailure (m.failedIterations + 1)).rollbackAttempted = true
            · rw [if_pos hb]
              have h4 := hdec.mp hb
              omega
            · rw [if_neg hb]
              have h4 : ¬ 3 < m.failedIterations + 1 := fun hc => hb (hdec.mpr hc)
              omega
        | exception => exact absurd ho he

/-- Witness for the amended C7: a two-failure run from a fresh state. -/
theorem backoff_and_rollback_amended_witness :
    (∀ e ∈ [(⟨true, "", IterOutcome.failure true, true⟩ : TickEnv),
            ⟨true, "", IterOutcome.failure true, true⟩],
        e.outcome ≠ IterOutcome.exception) ∧
    ((arun ⟨5⟩ [⟨true, "", IterOutcome.failure true, true⟩,
                ⟨true, "", IterOutcome.failure true, true⟩]
          Metrics.init).metrics.failedIterations
        = Metrics.init.failedIterations +
            (arun ⟨5⟩ [⟨true, "", IterOutcome.failure true, true⟩,
                       ⟨true, "", IterOutcome.failure true, true⟩]
              Metrics.init).backoffs.length ∧
     (arun ⟨5⟩ [⟨true, "", IterOutcome.failure true, true⟩,
                ⟨true, "", IterOutcome.failure true, true⟩]
          Metrics.init).backoffs
        = (List.range
            (arun ⟨5⟩ [⟨true, "", IterOutcome.failure true, true⟩,
                       ⟨true, "", IterOutcome.failure true, true⟩]
              Metrics.init).backoffs.length).map
            (fun i => min (2 ^ (Metrics.init.failedIterations + i + 1)) 60) ∧
     (arun ⟨5⟩ [⟨true, "", IterOutcome.failure true, true⟩,
                ⟨true, "", IterOutcome.failure true, true⟩]
          Metrics.init).rollbackAttempts
        = (arun ⟨5⟩ [⟨true, "", IterOutcome.failure true, true⟩,
                     ⟨true, "", IterOutcome.failure true, true⟩]
            Metrics.init).metrics.failedIterations
            - max 3 Metrics.init.failedIterations) :=
  ⟨by decide,
    backoff_and_rollback_amended ⟨5⟩
      [⟨true, "", IterOutcome.failure true, true⟩,
       ⟨true, "", IterOutcome.failure true, true⟩] Metrics.init (by decide)⟩

/-! ### Claim C3: ACP response metadata -/

/-- Claim C3 (counterexample).  The claim demands all six metadata keys on
every path; a concrete timeout response carries only three keys (no
`stop_reason`, `tool_calls_count`, `has_thoughts`), and a concrete
`stopReason = "error"` response carries only four (no `tool_calls_count`,
`has_thoughts`). -/
theorem acp_metadata_counterexample :
    ((executePrompt "claude-agent" "sess-1" (some ⟨"", [], []⟩) 300
        PromptOutcome.timeout).metadata.map Prod.fst
      = ["tool", "agent", "session_id"]) ∧
    (((executePrompt "claude-agent" "sess-1" (some ⟨"", [], []⟩) 300
        PromptOutcome.timeout).metadata.map Prod.fst).contains "stop_reason" = false) ∧
    ((executePrompt "claude-agent" "sess-1" (some ⟨"", [], []⟩) 300
        (PromptOutcome.response (some "error") (some "boom"))).metadata.map Prod.fst
      = ["tool", "agent", "session_id", "stop_reason"]) ∧
    (((executePrompt "claude-agent" "sess-1" (some ⟨"", [], []⟩) 300
        (PromptOutcome.response (some "error") (some "boom"))).metadata.map
          Prod.fst).contains "tool_calls_count" = false) := by
  refine ⟨by decide, by decide, by decide, by decide⟩

/-- Claim C3 (amended).  The metadata of every `ToolResponse` built by
`_execute_prompt` always includes `tool = "acp"`, `agent` and `session_id`;
the full six-key set `{tool, agent, session_id, stop_reason,
tool_calls_count, has_thoughts}` is present exactly on the success path;
the `stopReason = "error"` path carries only the first four keys and the
timeout path only the first three. -/
theorem execute_prompt_metadata_amended (agent sid : String)
    (session : Option ACPSessionState) (timeout : Nat)
    (stopReason errorMessage : Option String) :
    ((executePrompt agent sid session timeout PromptOutcome.timeout).metadata.map Prod.fst
      = ["tool", "agent", "session_id"]) ∧
    ((executePrompt agent sid session timeout
        (PromptOutcome.response stopReason errorMessage)).metadata.map Prod.fst
      = if stopReason.getD "unknown" = "error" then
          ["tool", "agent", "session_id", "stop_reason"]
        else
          ["tool", "agent", "session_id", "stop_reason", "tool_calls_count",
            "has_thoughts"]) ∧
    ((executePrompt agent sid session timeout
        (PromptOutcome.response stopReason errorMessage)).metadata.lookup "tool"
      = some (MetaValue.str "acp")) ∧
    ((executePrompt agent sid session timeout PromptOutcome.timeout).metadata.lookup "tool"
      = some (MetaValue.str "acp")) := by
  refine ⟨rfl, ?_, ?_, rfl⟩ <;>
    · rw [executePrompt]
      by_cases h : stopReason.getD "unknown" = "error" <;> simp [h, List.lookup]

/-! ### Claim C4: allowlist approval -/

/-- Claim C4.  In allowlist mode a request is approved exactly when some
pattern of the configured allowlist matches the operation, with
`_matches_pattern` deciding a match: a slash-delimited pattern by regex, a
pattern containing `*` or `?` by glob, anything else by exact equality. -/
theorem allowlist_approval_iff (reMatch fnMatch : String → String → Bool)
    (operation : String) (allowlist : List String) :
    (evaluateAllowlist reMatch fnMatch operation allowlist).approved = true
      ↔ ∃ p ∈ allowlist, matchesPattern reMatch fnMatch operation p = true := by
  induction allowlist with
  | nil => simp [evaluateAllowlist]
  | cons p ps ih =>
    rw [evaluateAllowlist]
    by_cases h : matchesPattern reMatch fnMatch operation p = true
    · simp [h]
    · rw [if_neg h]
      simp only [List.mem_cons]
      constructor
      · intro ha
        obtain ⟨q, hq, hmq⟩ := ih.mp ha
        exact ⟨q, Or.inr hq, hmq⟩
      · rintro ⟨q, hq | hq, hmq⟩
        · exact absurd (hq ▸ hmq) h
        · exact ih.mpr ⟨q, hq, hmq⟩

/-! ### Claim C5: permission response shape -/

/-- Fallback option id of `handle_request_permission`: the id of the first
option when options exist (defaulting to `proceed_once` when it carries
none), otherwise `proceed_once`. -/
def fallbackOptionId : List PermissionOption → String
  | [] => "proceed_once"
  | o :: _ => o.id.getD "proceed_once"

/-- Claim C5 (counterexample).  On allow with options
`[{type: "reject", id: "opt-reject"}, {type: "allow", id: ""}]` the claim
demands `optionId = ""` (the id of the first allow-type option); the code
treats the empty id as falsy and falls back to the first option id
`"opt-reject"`. -/
theorem permission_option_id_counterexample :
    handleRequestPermission true
        [⟨some "reject", some "opt-reject"⟩, ⟨some "allow", some ""⟩]
      = PermissionOutcome.selected "opt-reject" ∧
    "opt-reject" ≠ "" := by
  refine ⟨by decide, by decide⟩

/-- Helper: the first-allow scan agrees with `List.find?` composed with the
id projection. -/
theorem firstAllowOptionId_eq_find (options : List PermissionOption) :
    firstAllowOptionId options
      = (options.find? fun o => o.type == some "allow").bind PermissionOption.id := by
  induction options with
  | nil => rfl
  | cons o os ih =>
    cases h : (o.type == some "allow") with
    | true => simp [firstAllowOptionId, List.find?, h]
    | false => simp [firstAllowOptionId, List.find?, h, ih]

/-- Claim C5 (amended).  On deny the handler returns the cancelled outcome.
On allow it returns the selected outcome with optionId the id of the first
allow-type option when that id is present and non-empty; otherwise the id
of the first option when any options exist (or `proceed_once` when the
first option has no id); otherwise `proceed_once`. -/
theorem handle_request_permission_amended (approved : Bool)
    (options : List PermissionOption) :
    handleRequestPermission approved options
      = if approved then
          PermissionOutcome.selected
            (match (options.find? fun o => o.type == some "allow").bind
                PermissionOption.id with
             | some s => if s = "" then fallbackOptionId options else s
             | none => fallbackOptionId options)
        else PermissionOutcome.cancelled := by
  cases approved with
  | false => rfl
  | true =>
    have hstep : handleRequestPermission true options
        = PermissionOutcome.selected
            ((if pyFalsyStr (firstAllowOptionId options) = true then
                match options with
                | [] => some "proceed_once"
                | o :: _ => some (o.id.getD "proceed_once")
              else firstAllowOptionId options).getD "proceed_once") := rfl
    rw [hstep, firstAllowOptionId_eq_find]
    simp only [eq_self_iff_true, if_true]
    cases hb : (options.find? fun o => o.type == some "allow").bind
        PermissionOption.id with
    | none =>
      have ht : pyFalsyStr none = true := rfl
      rw [if_pos ht]
      cases options with
      | nil => rfl
      | cons o os => simp [fallbackOptionId]
    | some s =>
      by_cases hs : s = ""
      · subst hs
        have ht : pyFalsyStr (some "") = true := rfl
        rw [if_pos ht]
        cases options with
        | nil => rfl
        | cons o os => simp [fallbackOptionId]
      · have hfalse : pyFalsyStr (some s) = false := by
          simp [pyFalsyStr, hs]
        rw [if_neg (by rw [hfalse]; exact Bool.false_ne_true)]
        simp [hs]

/-! ### Claim C6: read-file error mapping -/

/-- Claim C6.  For an absolute path, `handle_read_file` answers: a missing
resolved path with `{content: null, exists: false}` (not an error); an
existing non-file with error code -32002; a permission failure with -32003;
invalid UTF-8 with -32004; any other OS error with -32000; and an existing
readable UTF-8 file with its text. -/
theorem read_file_error_mapping (fs : Fs) (p : String)
    (habs : pyStartsWith p "/" = true) :
    (fs.node (fs.resolve p) = FsNode.absent →
      handleReadFile fs (some p) = ReadFileResponse.missing) ∧
    (fs.node (fs.resolve p) = FsNode.directory →
      handleReadFile fs (some p)
        = ReadFileResponse.rpcError (-32002) ("Path is not a file: " ++ p)) ∧
    (∀ c, fs.node (fs.resolve p) = FsNode.file (ReadOutcome.ok c) →
      handleReadFile fs (some p) = ReadFileResponse.content c) ∧
    (fs.node (fs.resolve p) = FsNode.file ReadOutcome.permissionDenied →
      handleReadFile fs (some p)
        = ReadFileResponse.rpcError (-32003) ("Permission denied: " ++ p)) ∧
    (fs.node (fs.resolve p) = FsNode.file ReadOutcome.invalidUtf8 →
      handleReadFile fs (some p)
        = ReadFileResponse.rpcError (-32004) ("File is not valid UTF-8 text: " ++ p)) ∧
    (∀ msg, fs.node (fs.resolve p) = FsNode.file (ReadOutcome.osError msg) →
      handleReadFile fs (some p)
        = ReadFileResponse.rpcError (-32000) ("Failed to read file: " ++ msg)) := by
  have hp : ¬ p = "" := by
    intro h
    rw [h] at habs
    exact absurd habs (by decide)
  refine ⟨fun h => ?_, fun h => ?_, fun c h => ?_, fun h => ?_, fun h => ?_,
    fun msg h => ?_⟩ <;>
    · rw [handleReadFile]
      rw [if_neg hp, if_neg (by rw [habs]; exact Bool.false_ne_true), h]

/-- A concrete filesystem for the C6 witness: `/tmp/a.txt` is a readable
UTF-8 file, everything else is absent. -/
def sampleFs : Fs :=
  { resolve := fun s => s
    node := fun s =>
      if s = "/tmp/a.txt" then FsNode.file (ReadOutcome.ok "hello") else FsNode.absent }

/-- Witness for C6 at the sample filesystem and path `/tmp/a.txt`. -/
theorem read_file_error_mapping_witness :
    pyStartsWith "/tmp/a.txt" "/" = true ∧
    ((sampleFs.node (sampleFs.resolve "/tmp/a.txt") = FsNode.absent →
      handleReadFile sampleFs (some "/tmp/a.txt") = ReadFileResponse.missing) ∧
    (sampleFs.node (sampleFs.resolve "/tmp/a.txt") = FsNode.directory →
      handleReadFile sampleFs (some "/tmp/a.txt")
        = ReadFileResponse.rpcError (-32002) ("Path is not a file: " ++ "/tmp/a.txt")) ∧
    (∀ c, sampleFs.node (sampleFs.resolve "/tmp/a.txt") = FsNode.file (ReadOutcome.ok c) →
      handleReadFile sampleFs (some "/tmp/a.txt") = ReadFileResponse.content c) ∧
    (sampleFs.node (sampleFs.resolve "/tmp/a.txt") = FsNode.file ReadOutcome.permissionDenied →
      handleReadFile sampleFs (some "/tmp/a.txt")
        = ReadFileResponse.rpcError (-32003) ("Permission denied: " ++ "/tmp/a.txt")) ∧
    (sampleFs.node (sampleFs.resolve "/tmp/a.txt") = FsNode.file ReadOutcome.invalidUtf8 →
      handleReadFile sampleFs (some "/tmp/a.txt")
        = ReadFileResponse.rpcError (-32004)
            ("File is not valid UTF-8 text: " ++ "/tmp/a.txt")) ∧
    (∀ msg, sampleFs.node (sampleFs.resolve "/tmp/a.txt")
        = FsNode.file (ReadOutcome.osError msg) →
      handleReadFile sampleFs (some "/tmp/a.txt")
        = ReadFileResponse.rpcError (-32000) ("Failed to read file: " ++ msg))) :=
  ⟨by decide, read_file_error_mapping sampleFs "/tmp/a.txt" (by decide)⟩

end RalphOrchestrator
